import Mathlib

/-!
Shallow embedding of the scan execution core in as/src/base/scan.c: scan-type
dispatch, the basic scan job (start, per-partition slice, reduce callback,
percent and absolute-max sampling), the connection mixin (chunked sends,
fd release, abandonment), the ops-bg start path, and the background-job
sub-transaction completion accounting.  External collaborators (index tree
iterator, partition reservation, wire framing, scan manager registry) are
modelled at their documented interfaces: the iterator is a list of index
references, socket writes and predicate evaluations are outcome oracles
carried per record, and atomics are sequential updates on the shared job
state (each callback invocation is one atomic grain).
-/

namespace ScanCore

--------------------------------------------------------------------------------
-- Constants.
--------------------------------------------------------------------------------

/-- Wire protocol result codes (proto.h interface; only distinctness of the
named codes matters to the scan core). -/
def AS_OK : Nat := 0

def AS_ERR_UNKNOWN : Nat := 1

def AS_ERR_NOT_FOUND : Nat := 2

def AS_ERR_PARAMETER : Nat := 4

def AS_ERR_CLUSTER_KEY_MISMATCH : Nat := 7

def AS_ERR_UNAVAILABLE : Nat := 11

def AS_ERR_BIN_NAME : Nat := 21

def AS_ERR_FILTERED_OUT : Nat := 27

/-- Modelled from the spec: scan-job abandonment reason codes (scan_job.h is
not under src/); the spec names RESPONSE_TIMEOUT, RESPONSE_ERROR, USER_ABORT,
CLUSTER_KEY and UNKNOWN as distinct nonzero reasons. -/
def AS_SCAN_ERR_UNKNOWN : Nat := 1

def AS_SCAN_ERR_CLUSTER_KEY : Nat := 4

def AS_SCAN_ERR_USER_ABORT : Nat := 5

def AS_SCAN_ERR_RESPONSE_ERROR : Nat := 6

def AS_SCAN_ERR_RESPONSE_TIMEOUT : Nat := 7

/-- Modelled from the spec: INVALID_SET_ID marks "whole namespace"
(datamodel.h is not under src/; set ids are positive, 0 is invalid). -/
def INVALID_SET_ID : Nat := 0

def AS_PARTITIONS : Nat := 4096

def SAMPLE_MARGIN : Nat := 4

def MAX_ACTIVE_TRANSACTIONS : Nat := 200

/-- Size in bytes of the as_proto frame header (proto.h interface). -/
def sizeof_as_proto : Nat := 8

/-- UDF_OP field value for aggregation requests. -/
def AS_UDF_OP_AGGREGATE : Nat := 1

/-- UDF_OP field value for background-UDF requests. -/
def AS_UDF_OP_BACKGROUND : Nat := 2

--------------------------------------------------------------------------------
-- Scan-type inference (get_scan_type, as_scan dispatch).
--------------------------------------------------------------------------------

inductive ScanType
  | basic
  | aggr
  | udfBg
  | opsBg
  | unknown
deriving DecidableEq

/-- The request bits get_scan_type looks at: whether the transaction is a UDF
request, the info2 WRITE bit, and the UDF_OP field (none when absent). -/
structure TrMsg where
  isUdf : Bool
  info2Write : Bool
  udfOp : Option Nat
deriving DecidableEq

/-- Embedding of get_scan_type (scan.c lines 246-266). -/
def get_scan_type (tr : TrMsg) : ScanType :=
  if tr.isUdf = false then
    if tr.info2Write = true then ScanType.opsBg else ScanType.basic
  else
    match tr.udfOp with
    | some op =>
        if op = AS_UDF_OP_AGGREGATE then ScanType.aggr
        else if op = AS_UDF_OP_BACKGROUND then ScanType.udfBg
        else ScanType.unknown
    | none => ScanType.unknown

/-- Embedding of the as_scan dispatch (scan.c lines 169-194): the four start
entry points are abstracted by their result codes; the second component
records which job-start was invoked (none in the default branch, where the
PARAMETER error is returned without starting any job). -/
def as_scan (tr : TrMsg) (basicRes aggrRes udfBgRes opsBgRes : Nat) :
    Nat × Option ScanType :=
  match get_scan_type tr with
  | ScanType.basic => (basicRes, some ScanType.basic)
  | ScanType.aggr => (aggrRes, some ScanType.aggr)
  | ScanType.udfBg => (udfBgRes, some ScanType.udfBg)
  | ScanType.opsBg => (opsBgRes, some ScanType.opsBg)
  | ScanType.unknown => (AS_ERR_PARAMETER, none)

--------------------------------------------------------------------------------
-- Absolute-max sampling initialisation (sample_max_init).
--------------------------------------------------------------------------------

/-- The three fields sample_max_init writes on the basic job. -/
structure SampleInit where
  sampleMax : Nat
  sampleCount : Nat
  maxPerPartition : Nat
deriving DecidableEq

/-- Embedding of sample_max_init (scan.c lines 1112-1147).  samplePct is only
consulted for a warning in the source, so it has no effect here;
clusterSize abstracts as_exchange_cluster_size(). -/
def sample_max_init (_samplePct nPidsRequested clusterSize sampleMax : Nat) :
    SampleInit :=
  if sampleMax = 0 then
    { sampleMax := 0, sampleCount := 0, maxPerPartition := 0 }
  else
    let nPids :=
      if nPidsRequested = 0 then AS_PARTITIONS / clusterSize else nPidsRequested
    { sampleMax := sampleMax, sampleCount := 0,
      maxPerPartition := (sampleMax + nPids - 1) / nPids + SAMPLE_MARGIN }

/-- Ceiling division as the spec writes it: ceil(m / n). -/
def ceil_div (m n : Nat) : Nat :=
  if m % n = 0 then m / n else m / n + 1

--------------------------------------------------------------------------------
-- Background-job sub-transaction completion (udf_bg / ops_bg tr_complete).
--------------------------------------------------------------------------------

/-- The background-job state tr_complete touches: the in-flight counter and
the three result counters on the base job. -/
structure BgJobState where
  nActiveTr : Nat
  nSucceeded : Nat
  nFilteredBins : Nat
  nFailed : Nat
deriving DecidableEq

/-- Embedding of udf_bg_scan_tr_complete (scan.c lines 1754-1775).  The
n_active_tr decrement is Nat monus; completions only follow increments, so
the counter is positive whenever this runs. -/
def udf_bg_scan_tr_complete (st : BgJobState) (result : Nat) : BgJobState :=
  let st1 := { st with nActiveTr := st.nActiveTr - 1 }
  if result = AS_OK then { st1 with nSucceeded := st1.nSucceeded + 1 }
  else if result = AS_ERR_NOT_FOUND then st1
  else if result = AS_ERR_FILTERED_OUT then
    { st1 with nFilteredBins := st1.nFilteredBins + 1 }
  else { st1 with nFailed := st1.nFailed + 1 }

/-- Embedding of ops_bg_scan_tr_complete (scan.c lines 2035-2056); the body
is identical to the udf-bg variant. -/
def ops_bg_scan_tr_complete (st : BgJobState) (result : Nat) : BgJobState :=
  let st1 := { st with nActiveTr := st.nActiveTr - 1 }
  if result = AS_OK then { st1 with nSucceeded := st1.nSucceeded + 1 }
  else if result = AS_ERR_NOT_FOUND then st1
  else if result = AS_ERR_FILTERED_OUT then
    { st1 with nFilteredBins := st1.nFilteredBins + 1 }
  else { st1 with nFailed := st1.nFailed + 1 }

/-- Folds a completion callback over a sequence of sub-transaction results
(the order is any interleaving of the completion threads; each callback run
is atomic at the granularity the counters are read). -/
def runCompletions (f : BgJobState → Nat → BgJobState) (st : BgJobState)
    (results : List Nat) : BgJobState :=
  results.foldl f st

/-- Number of NOT_FOUND results in a completion sequence. -/
def countNotFound (results : List Nat) : Nat :=
  results.countP (fun r => r == AS_ERR_NOT_FOUND)

--------------------------------------------------------------------------------
-- Connection mixin: blocking chunk send and fd release (conn_scan_job).
--------------------------------------------------------------------------------

/-- Modelled from the spec: as_scan_manager_abandon_job (scan_manager.c is not
under src/) sets the abandonment reason only if it is currently zero, and is
otherwise a no-op (idempotent). -/
def abandon_reason (current reason : Nat) : Nat :=
  if current = 0 then reason else current

/-- The conn_scan_job fields send_response touches.  fdLive models fd_h being
non-null; the fd_lock serialises callers, so one call is one atomic grain. -/
structure ConnJob where
  fdLive : Bool
  compressResponse : Bool
  netIoBytes : Nat
deriving DecidableEq

/-- The base-job field the send path touches through the manager. -/
structure JobCtl where
  abandoned : Nat
deriving DecidableEq

/-- Outcomes of the external calls made during one send: the size
as_proto_compress reports back, whether cf_socket_send_all wrote everything,
and whether errno was ETIMEDOUT on failure. -/
structure SendEnv where
  compressedSize : Nat
  sendOk : Bool
  errnoTimedOut : Bool
deriving DecidableEq

/-- Embedding of send_blocking_response_chunk (scan.c lines 508-533): fills
the proto header inside the buffer (so size includes the header), optionally
compresses (updating size), writes the whole range or fails, and returns
0 on failure, else sizeof(as_proto) + size. -/
def send_blocking_response_chunk (size : Nat) (compress : Bool)
    (env : SendEnv) : Nat :=
  let sendSize := if compress = true then env.compressedSize else size
  if env.sendOk = true then sizeof_as_proto + sendSize else 0

/-- Everything one conn_scan_job_send_response call returns or changes:
its boolean result, the new conn and base-job state, whether a send was
attempted, whether the fd was force-closed by this call, and the bytes
actually handed to the socket on success. -/
structure SendOutcome where
  ret : Bool
  job : ConnJob
  ctl : JobCtl
  attemptedSend : Bool
  forceClosedNow : Bool
  bytesWritten : Nat
deriving DecidableEq

/-- Embedding of conn_scan_job_send_response (scan.c lines 624-654) together
with conn_scan_job_release_fd (lines 656-662): under the fd lock, a null fd
returns false immediately; a failed send force-closes and nulls the fd,
abandons the job with a reason chosen by errno, and returns false; a full
send accumulates the returned size into net_io_bytes. -/
def conn_scan_job_send_response (job : ConnJob) (ctl : JobCtl) (size : Nat)
    (env : SendEnv) : SendOutcome :=
  if job.fdLive = false then
    { ret := false, job := job, ctl := ctl, attemptedSend := false,
      forceClosedNow := false, bytesWritten := 0 }
  else
    let sizeSent := send_blocking_response_chunk size job.compressResponse env
    if sizeSent = 0 then
      { ret := false,
        job := { job with fdLive := false },
        ctl := { ctl with
          abandoned := abandon_reason ctl.abandoned
            (if env.errnoTimedOut = true then AS_SCAN_ERR_RESPONSE_TIMEOUT
             else AS_SCAN_ERR_RESPONSE_ERROR) },
        attemptedSend := true, forceClosedNow := true, bytesWritten := 0 }
    else
      { ret := true,
        job := { job with netIoBytes := job.netIoBytes + sizeSent },
        ctl := ctl, attemptedSend := true, forceClosedNow := false,
        bytesWritten :=
          if job.compressResponse = true then env.compressedSize else size }

/-- Runs a sequence of send_response calls on one job, counting how many of
them force-closed the fd. -/
def runSends (job : ConnJob) (ctl : JobCtl) :
    List (Nat × SendEnv) → ConnJob × JobCtl × Nat
  | [] => (job, ctl, 0)
  | e :: rest =>
      let out := conn_scan_job_send_response job ctl e.1 e.2
      let next := runSends out.job out.ctl rest
      (next.1, next.2.1, (if out.forceClosedNow = true then 1 else 0) + next.2.2)

--------------------------------------------------------------------------------
-- Basic scan job: configuration, records, reduce callback.
--------------------------------------------------------------------------------

/-- The basic_scan_job fields the slice and reduce callback read (the shared
counters live in JobState below). -/
structure BasicJobCfg where
  failOnClusterChange : Bool
  clusterKey : Nat
  noBinData : Bool
  samplePct : Nat
  sampleMax : Nat
  maxPerPartition : Nat
  hasPredexp : Bool
  setId : Nat
  setNameNonEmpty : Bool
  storageDataInMemory : Bool
deriving DecidableEq

/-- One index reference as the reduce callback sees it. -/
structure Rec where
  live : Bool
  setId : Nat
  doomed : Bool
deriving DecidableEq

/-- Result of predexp_matches_metadata. -/
inductive PredexpRV
  | rvTrue
  | rvFalse
  | rvUnknown
deriving DecidableEq

/-- Outcomes of the external calls the callback makes while holding this
record: the current cluster key, the metadata predicate verdict, the
bin-level predicate verdict, whether the bins load, whether the buffer
crossed SCAN_CHUNK_LIMIT after this record was added, and the flush send
outcome. -/
structure RecEnv where
  clusterKeyNow : Nat
  metaRV : PredexpRV
  binsPass : Bool
  loadBinsOk : Bool
  bufOverLimit : Bool
  sendOk : Bool
  errnoTimedOut : Bool
deriving DecidableEq

/-- The shared (atomic) job state the callback updates. -/
structure JobState where
  abandoned : Nat
  sampleCount : Nat
  nSucceeded : Nat
  nFailed : Nat
  nFilteredMeta : Nat
  nFilteredBins : Nat
deriving DecidableEq

/-- The per-partition basic_scan_slice counters (the job and buffer pointers
are passed separately). -/
structure SliceState where
  limit : Nat
  count : Nat
deriving DecidableEq

/-- Resource events the callback performs, in order: releasing the index
reference (as_record_done), opening and closing the storage handle, and
serializing the record into the buffer. -/
inductive Eff
  | recordDone
  | storageOpen
  | storageClose
  | serialize
deriving DecidableEq

/-- Which source exit path a callback invocation took. -/
inductive CbExit
  | stopAbandoned
  | stopClusterKey
  | stopAtLimit
  | skipNotLive
  | skipSetOrDoomed
  | skipMetaFiltered
  | skipBinsFiltered
  | stopOverMax
  | skipUnreadable
  | doneEmitted (lastSample : Bool)
deriving DecidableEq

/-- Everything one reduce-callback invocation returns: whether iteration
continues, the new shared and slice state, the resource events in order,
and the exit path taken. -/
structure CbOut where
  cont : Bool
  st : JobState
  sl : SliceState
  effs : List Eff
  exit : CbExit
deriving DecidableEq

/-- Embedding of excluded_set (scan.c lines 535-540). -/
def excluded_set (rSetId setId : Nat) : Bool :=
  decide (setId ≠ INVALID_SET_ID ∧ setId ≠ rSetId)

/-- Embedding of basic_scan_predexp_filter_meta (scan.c lines 1056-1078):
returns (record passes, bin-level check still pending). -/
def basic_scan_predexp_filter_meta (hasPredexp : Bool) (rv : PredexpRV) :
    Bool × Bool :=
  if hasPredexp = false then (true, false)
  else
    match rv with
    | PredexpRV.rvUnknown => (true, true)
    | PredexpRV.rvTrue => (true, false)
    | PredexpRV.rvFalse => (false, false)

/-- Embedding of the tail of basic_scan_job_reduce_cb after the storage
handle is open and the sample-max decision is made (scan.c lines 1011-1053):
serialize metadata-only or load bins (failing increments n_failed and skips),
close, release, count the success, stop if this was the last sample, else
flush the buffer past SCAN_CHUNK_LIMIT; a failed flush abandons the job
inside conn_scan_job_send_response yet still returns true. -/
def basic_scan_emit (cfg : BasicJobCfg) (env : RecEnv) (st : JobState)
    (sl : SliceState) (lastSample : Bool) : CbOut :=
  if cfg.noBinData = false ∧ env.loadBinsOk = false then
    { cont := true, st := { st with nFailed := st.nFailed + 1 }, sl := sl,
      effs := [Eff.storageOpen, Eff.storageClose, Eff.recordDone],
      exit := CbExit.skipUnreadable }
  else if lastSample = true then
    { cont := false, st := { st with nSucceeded := st.nSucceeded + 1 },
      sl := sl,
      effs := [Eff.storageOpen, Eff.serialize, Eff.storageClose,
        Eff.recordDone],
      exit := CbExit.doneEmitted true }
  else if env.bufOverLimit = true ∧ env.sendOk = false then
    let reason :=
      if env.errnoTimedOut = true then AS_SCAN_ERR_RESPONSE_TIMEOUT
      else AS_SCAN_ERR_RESPONSE_ERROR
    { cont := true,
      st := { st with
              nSucceeded := st.nSucceeded + 1,
              abandoned := abandon_reason st.abandoned reason },
      sl := sl,
      effs := [Eff.storageOpen, Eff.serialize, Eff.storageClose,
        Eff.recordDone],
      exit := CbExit.doneEmitted false }
  else
    { cont := true, st := { st with nSucceeded := st.nSucceeded + 1 },
      sl := sl,
      effs := [Eff.storageOpen, Eff.serialize, Eff.storageClose,
        Eff.recordDone],
      exit := CbExit.doneEmitted false }

/-- Embedding of basic_scan_job_reduce_cb (scan.c lines 931-1054).  Branches
in source order: abandoned check; fail-on-cluster-change check (abandoning
with AS_ERR_CLUSTER_KEY_MISMATCH); percent-sampling limit gate (post-
incrementing count, then filtering tombstones); set and doomed filters;
metadata predicate; storage open; bin predicate; absolute-max sampling
fetch-add deciding drop or last sample; then the emit tail. -/
def basic_scan_job_reduce_cb (cfg : BasicJobCfg) (r : Rec) (env : RecEnv)
    (st : JobState) (sl : SliceState) : CbOut :=
  if st.abandoned ≠ 0 then
    { cont := false, st := st, sl := sl, effs := [Eff.recordDone],
      exit := CbExit.stopAbandoned }
  else if cfg.failOnClusterChange = true ∧ cfg.clusterKey ≠ env.clusterKeyNow
  then
    { cont := false,
      st := { st with
        abandoned := abandon_reason st.abandoned AS_ERR_CLUSTER_KEY_MISMATCH },
      sl := sl, effs := [Eff.recordDone], exit := CbExit.stopClusterKey }
  else if sl.limit ≠ 0 ∧ sl.count = sl.limit then
    { cont := false, st := st, sl := { sl with count := sl.count + 1 },
      effs := [Eff.recordDone], exit := CbExit.stopAtLimit }
  else if sl.limit ≠ 0 ∧ r.live = false then
    { cont := true, st := st, sl := { sl with count := sl.count + 1 },
      effs := [Eff.recordDone], exit := CbExit.skipNotLive }
  else
    let sl1 := if sl.limit ≠ 0 then { sl with count := sl.count + 1 } else sl
    if excluded_set r.setId cfg.setId = true ∨ r.doomed = true then
      { cont := true, st := st, sl := sl1, effs := [Eff.recordDone],
        exit := CbExit.skipSetOrDoomed }
    else if (basic_scan_predexp_filter_meta cfg.hasPredexp env.metaRV).1
        = false then
      { cont := true,
        st := { st with nFilteredMeta := st.nFilteredMeta + 1 }, sl := sl1,
        effs := [Eff.recordDone], exit := CbExit.skipMetaFiltered }
    else if (basic_scan_predexp_filter_meta cfg.hasPredexp env.metaRV).2
        = true ∧ env.binsPass = false then
      { cont := true,
        st := { st with nFilteredBins := st.nFilteredBins + 1 }, sl := sl1,
        effs := [Eff.storageOpen, Eff.storageClose, Eff.recordDone],
        exit := CbExit.skipBinsFiltered }
    else if cfg.maxPerPartition ≠ 0 then
      if st.sampleCount + 1 > cfg.sampleMax then
        { cont := false,
          st := { st with sampleCount := st.sampleCount + 1 }, sl := sl1,
          effs := [Eff.storageOpen, Eff.storageClose, Eff.recordDone],
          exit := CbExit.stopOverMax }
      else
        basic_scan_emit cfg env { st with sampleCount := st.sampleCount + 1 }
          sl1 (decide (st.sampleCount + 1 = cfg.sampleMax))
    else
      basic_scan_emit cfg env st sl1 false

/-- Counts occurrences of one resource event. -/
def countEff (e : Eff) : List Eff → Nat
  | [] => 0
  | x :: xs => (if x = e then 1 else 0) + countEff e xs

/-- True when the invocation got past the percent-limit gate (every exit
other than the abandoned, cluster-key and limit stops means the reference
was considered). -/
def passed_limit_gate : CbExit → Bool
  | CbExit.stopAbandoned => false
  | CbExit.stopClusterKey => false
  | CbExit.stopAtLimit => false
  | _ => true

/-- Runs the index reduction over one partition: invokes the callback per
reference in digest order, threading the shared and slice state, stopping
when a callback returns false; collects the exit paths in order. -/
def run_cb (cfg : BasicJobCfg) :
    List (Rec × RecEnv) → JobState → SliceState →
      JobState × SliceState × List CbExit
  | [], st, sl => (st, sl, [])
  | e :: rest, st, sl =>
      let out := basic_scan_job_reduce_cb cfg e.1 e.2 st sl
      if out.cont = true then
        let next := run_cb cfg rest out.st out.sl
        (next.1, next.2.1, out.exit :: next.2.2)
      else (out.st, out.sl, [out.exit])

/-- Runs callback invocations in any global interleaving across partitions:
each entry carries its own slice state, all entries share the job state. -/
def run_shared (cfg : BasicJobCfg) :
    JobState → List (Rec × RecEnv × SliceState) → JobState
  | st, [] => st
  | st, e :: rest =>
      run_shared cfg (basic_scan_job_reduce_cb cfg e.1 e.2.1 st e.2.2).st rest

/-- The all-zero job state a freshly started job carries. -/
def initJobState : JobState :=
  { abandoned := 0, sampleCount := 0, nSucceeded := 0, nFailed := 0,
    nFilteredMeta := 0, nFilteredBins := 0 }

--------------------------------------------------------------------------------
-- Basic scan slice (basic_scan_job_slice).
--------------------------------------------------------------------------------

/-- A chunk the slice emits on the socket besides record data. -/
inductive Emit
  | pidDone (code : Nat)
deriving DecidableEq

/-- What one slice did: the final shared state, the percent-sampling limit it
computed (0 outside the percent branch), whether it reduced the tree at all,
the exit path of every callback invocation, and the per-pid-done chunks it
emitted (record-data chunk flushes are part of the callback embedding). -/
structure SliceOut where
  st : JobState
  limit : Nat
  reduced : Bool
  exits : List CbExit
  emits : List Emit
deriving DecidableEq

/-- Modelled at the documented interface: as_index_reduce_from_live iterates
only the live (non-tombstone) references of the tree. -/
def live_refs (recs : List (Rec × RecEnv)) : List (Rec × RecEnv) :=
  recs.filter (fun e => e.1.live)

/-- Packs a finished reduction into a SliceOut, appending the per-pid-done OK
chunk for per-partition scans. -/
def slice_finish (hasPids : Bool) (limit : Nat)
    (out : JobState × SliceState × List CbExit) : SliceOut :=
  { st := out.1, limit := limit, reduced := true, exits := out.2.2,
    emits := if hasPids = true then [Emit.pidDone AS_OK] else [] }

/-- Embedding of basic_scan_job_slice (scan.c lines 816-881).  treePresent
models rsv->tree being non-null (the partition is locally mastered); recs is
the tree content in digest order starting at the optional per-pid digest;
treeSize abstracts as_index_tree_size.  Branches in source order: absent
tree emits per-pid-done UNAVAILABLE; unresolved set emits per-pid-done OK;
absolute-max sampling reduces live references only while sample_count has
not reached sample_max; percent sampling computes the limit and reduces all
references unless the limit is 0; otherwise a full scan of live
references. -/
def basic_scan_job_slice (cfg : BasicJobCfg) (hasPids treePresent : Bool)
    (treeSize : Nat) (recs : List (Rec × RecEnv)) (st : JobState) : SliceOut :=
  if treePresent = false then
    { st := st, limit := 0, reduced := false, exits := [],
      emits := [Emit.pidDone AS_ERR_UNAVAILABLE] }
  else if cfg.setId = INVALID_SET_ID ∧ cfg.setNameNonEmpty = true then
    { st := st, limit := 0, reduced := false, exits := [],
      emits := [Emit.pidDone AS_OK] }
  else if cfg.maxPerPartition ≠ 0 then
    if st.sampleCount < cfg.sampleMax then
      slice_finish hasPids 0
        (run_cb cfg (live_refs recs) st { limit := 0, count := 0 })
    else
      { st := st, limit := 0, reduced := false, exits := [],
        emits := if hasPids = true then [Emit.pidDone AS_OK] else [] }
  else if cfg.samplePct ≠ 100 then
    if treeSize * cfg.samplePct / 100 ≠ 0 then
      slice_finish hasPids (treeSize * cfg.samplePct / 100)
        (run_cb cfg recs st
          { limit := treeSize * cfg.samplePct / 100, count := 0 })
    else
      { st := st, limit := treeSize * cfg.samplePct / 100, reduced := false,
        exits := [],
        emits := if hasPids = true then [Emit.pidDone AS_OK] else [] }
  else
    slice_finish hasPids 0
      (run_cb cfg (live_refs recs) st { limit := 0, count := 0 })

--------------------------------------------------------------------------------
-- Basic scan start (basic_scan_job_start).
--------------------------------------------------------------------------------

/-- The parsed request fields basic_scan_job_start consumes. -/
structure BasicReq where
  hasPids : Bool
  nPidsRequested : Nat
  setId : Nat
  setNameNonEmpty : Bool
  samplePct : Nat
  sampleMax : Nat
  noBinData : Bool
  failOnClusterChange : Bool
  hasPredexp : Bool
  storageDataInMemory : Bool
deriving DecidableEq

/-- Outcomes of the external calls basic_scan_job_start makes: field parsing,
predexp compilation, the bin_names_from_op result code (AS_OK when fine),
whether migrations are pending, the manager admission result (0 admits), the
cluster key snapshot and the cluster size. -/
structure BasicStartEnv where
  parseOk : Bool
  predexpOk : Bool
  binNamesRes : Nat
  migrating : Bool
  managerRes : Nat
  clusterKey : Nat
  clusterSize : Nat
deriving DecidableEq

inductive BasicStart
  | err (code : Nat)
  | admitted (cfg : BasicJobCfg)
deriving DecidableEq

/-- The job configuration basic_scan_job_start builds (cluster key snapshot,
option flags, and the sampling fields written by sample_max_init). -/
def mk_basic_cfg (req : BasicReq) (env : BasicStartEnv) : BasicJobCfg :=
  { failOnClusterChange := req.failOnClusterChange
    clusterKey := env.clusterKey
    noBinData := req.noBinData
    samplePct := req.samplePct
    sampleMax := (sample_max_init req.samplePct req.nPidsRequested
      env.clusterSize req.sampleMax).sampleMax
    maxPerPartition := (sample_max_init req.samplePct req.nPidsRequested
      env.clusterSize req.sampleMax).maxPerPartition
    hasPredexp := req.hasPredexp
    setId := req.setId
    setNameNonEmpty := req.setNameNonEmpty
    storageDataInMemory := req.storageDataInMemory }

/-- Embedding of basic_scan_job_start (scan.c lines 725-810).  Checks in
source order: message field parsing; the legacy unknown-set gate returning
NOT_FOUND only when no pids were sent; predexp compilation; bin-name
extraction; the fail-on-cluster-change migration gate; manager admission. -/
def basic_scan_job_start (req : BasicReq) (env : BasicStartEnv) : BasicStart :=
  if env.parseOk = false then BasicStart.err AS_ERR_PARAMETER
  else if req.hasPids = false ∧ req.setId = INVALID_SET_ID ∧
      req.setNameNonEmpty = true then
    BasicStart.err AS_ERR_NOT_FOUND
  else if env.predexpOk = false then BasicStart.err AS_ERR_PARAMETER
  else if env.binNamesRes ≠ AS_OK then BasicStart.err env.binNamesRes
  else if req.failOnClusterChange = true ∧ env.migrating = true then
    BasicStart.err AS_ERR_CLUSTER_KEY_MISMATCH
  else if env.managerRes ≠ 0 then BasicStart.err env.managerRes
  else BasicStart.admitted (mk_basic_cfg req env)

--------------------------------------------------------------------------------
-- Ops-bg scan start (ops_bg_scan_job_start, ops_bg_validate_ops).
--------------------------------------------------------------------------------

/-- The originating message fields the ops-bg start path consumes. -/
structure OpsMsg where
  info1Read : Bool
  info2DurableDelete : Bool
  info3UpdateOnly : Bool
  info3ReplaceOnly : Bool
  nOps : Nat
deriving DecidableEq

/-- Embedding of ops_bg_validate_ops (scan.c lines 1963-1981): rejects a set
READ bit and zero ops; true models the non-null pointer to the first op. -/
def ops_bg_validate_ops (m : OpsMsg) : Bool :=
  if m.info1Read = true then false
  else if m.nOps = 0 then false
  else true

/-- The info flags of the internal sub-transaction message template. -/
structure MsgTemplate where
  info2Write : Bool
  info2DurableDelete : Bool
  info3UpdateOnly : Bool
  info3ReplaceOnly : Bool
deriving DecidableEq

/-- The template ops_bg_scan_job_start passes to as_msg_create_internal
(scan.c lines 1862-1868): info2 = WRITE or-ed with the request's
DURABLE_DELETE bit; info3 = UPDATE_ONLY or-ed with the request's
REPLACE_ONLY bit. -/
def ops_bg_template (m : OpsMsg) : MsgTemplate :=
  { info2Write := true
    info2DurableDelete := m.info2DurableDelete
    info3UpdateOnly := true
    info3ReplaceOnly := m.info3ReplaceOnly }

/-- Outcomes of the external calls ops_bg_scan_job_start makes. -/
structure OpsStartEnv where
  parseOk : Bool
  setId : Nat
  setNameNonEmpty : Bool
  rpsOk : Bool
  predexpOk : Bool
  managerRes : Nat
deriving DecidableEq

inductive OpsBgStart
  | err (code : Nat)
  | admitted (tpl : MsgTemplate)
deriving DecidableEq

/-- Embedding of ops_bg_scan_job_start (scan.c lines 1816-1899).  Checks in
source order: field parsing; unknown-set gate returning NOT_FOUND;
background rps validation; ops validation; predexp compilation; then the
job is built around the internal message template and admitted unless the
manager refuses. -/
def ops_bg_scan_job_start (m : OpsMsg) (env : OpsStartEnv) : OpsBgStart :=
  if env.parseOk = false then OpsBgStart.err AS_ERR_PARAMETER
  else if env.setId = INVALID_SET_ID ∧ env.setNameNonEmpty = true then
    OpsBgStart.err AS_ERR_NOT_FOUND
  else if env.rpsOk = false then OpsBgStart.err AS_ERR_PARAMETER
  else if ops_bg_validate_ops m = false then OpsBgStart.err AS_ERR_PARAMETER
  else if env.predexpOk = false then OpsBgStart.err AS_ERR_PARAMETER
  else if env.managerRes ≠ 0 then OpsBgStart.err env.managerRes
  else OpsBgStart.admitted (ops_bg_template m)

/-- States that one callback invocation survives every filter before the
absolute-max sampling block: the job is not abandoned, the cluster key
matches (or is not checked), the percent-limit gate is inactive (sample-max
slices leave limit at 0), the record passes the set and doomed filters, the
metadata predicate passes, and a pending bin predicate passes. -/
def reaches_sample_block (cfg : BasicJobCfg) (r : Rec) (env : RecEnv)
    (st : JobState) (sl : SliceState) : Prop :=
  st.abandoned = 0 ∧
  ¬(cfg.failOnClusterChange = true ∧ cfg.clusterKey ≠ env.clusterKeyNow) ∧
  sl.limit = 0 ∧
  ¬(excluded_set r.setId cfg.setId = true ∨ r.doomed = true) ∧
  (basic_scan_predexp_filter_meta cfg.hasPredexp env.metaRV).1 = true ∧
  ¬((basic_scan_predexp_filter_meta cfg.hasPredexp env.metaRV).2 = true ∧
    env.binsPass = false)

/-- A live record in the namespace-wide set, for concrete runs. -/
def recW : Rec :=
  { live := true, setId := 0, doomed := false }

/-- External-call outcomes where everything succeeds, for concrete runs. -/
def envW : RecEnv :=
  { clusterKeyNow := 0, metaRV := PredexpRV.rvUnknown, binsPass := true,
    loadBinsOk := true, bufOverLimit := false, sendOk := true,
    errnoTimedOut := false }

/-- A basic job doing absolute-max sampling with sample_max 2, for concrete
runs. -/
def cfgW : BasicJobCfg :=
  { failOnClusterChange := false, clusterKey := 0, noBinData := true,
    samplePct := 100, sampleMax := 2, maxPerPartition := 5,
    hasPredexp := false, setId := 0, setNameNonEmpty := false,
    storageDataInMemory := true }

/-- A basic job doing 10-percent sampling, for concrete runs. -/
def cfgW2 : BasicJobCfg :=
  { failOnClusterChange := false, clusterKey := 0, noBinData := false,
    samplePct := 10, sampleMax := 0, maxPerPartition := 0,
    hasPredexp := false, setId := 0, setNameNonEmpty := false,
    storageDataInMemory := true }

/-- A legacy (no-pids) basic request naming a set unknown in the namespace,
for concrete runs. -/
def reqW : BasicReq :=
  { hasPids := false, nPidsRequested := 0, setId := 0,
    setNameNonEmpty := true, samplePct := 100, sampleMax := 0,
    noBinData := false, failOnClusterChange := false, hasPredexp := false,
    storageDataInMemory := true }

/-- A per-partition variant of reqW, with pids requested. -/
def reqW2 : BasicReq :=
  { hasPids := true, nPidsRequested := 2, setId := 0,
    setNameNonEmpty := true, samplePct := 100, sampleMax := 0,
    noBinData := false, failOnClusterChange := false, hasPredexp := false,
    storageDataInMemory := true }

/-- Start-path outcomes where every external call succeeds, for concrete
runs. -/
def envW8 : BasicStartEnv :=
  { parseOk := true, predexpOk := true, binNamesRes := 0, migrating := false,
    managerRes := 0, clusterKey := 5, clusterSize := 1 }

--------------------------------------------------------------------------------
-- Helper lemmas.
--------------------------------------------------------------------------------

theorem ceil_div_eq (m n : Nat) (hm : 0 < m) (hn : 0 < n) :
    (m + n - 1) / n = ceil_div m n := by
  have hdm : n * (m / n) + m % n = m := Nat.div_add_mod m n
  have hlt : m % n < n := Nat.mod_lt _ hn
  unfold ceil_div
  by_cases h : m % n = 0
  · rw [if_pos h]
    apply Nat.div_eq_of_lt_le
    · have e : m / n * n = n * (m / n) := Nat.mul_comm _ _
      omega
    · have e : (m / n + 1) * n = m / n * n + n := by
        rw [Nat.add_mul, Nat.one_mul]
      have e2 : m / n * n = n * (m / n) := Nat.mul_comm _ _
      omega
  · rw [if_neg h]
    apply Nat.div_eq_of_lt_le
    · have e : (m / n + 1) * n = m / n * n + n := by
        rw [Nat.add_mul, Nat.one_mul]
      have e2 : m / n * n = n * (m / n) := Nat.mul_comm _ _
      omega
    · have e : (m / n + 1 + 1) * n = m / n * n + n + n := by
        rw [Nat.add_mul, Nat.add_mul, Nat.one_mul]
      have e2 : m / n * n = n * (m / n) := Nat.mul_comm _ _
      omega

theorem tr_complete_sum (st : BgJobState) (r : Nat) :
    (udf_bg_scan_tr_complete st r).nSucceeded +
      (udf_bg_scan_tr_complete st r).nFilteredBins +
      (udf_bg_scan_tr_complete st r).nFailed +
      (if r = AS_ERR_NOT_FOUND then 1 else 0) =
    st.nSucceeded + st.nFilteredBins + st.nFailed + 1 := by
  unfold udf_bg_scan_tr_complete
  unfold AS_OK AS_ERR_NOT_FOUND AS_ERR_FILTERED_OUT
  split_ifs <;> simp_all <;> omega

theorem runCompletions_sum (st : BgJobState) (rs : List Nat) :
    (runCompletions udf_bg_scan_tr_complete st rs).nSucceeded +
      (runCompletions udf_bg_scan_tr_complete st rs).nFilteredBins +
      (runCompletions udf_bg_scan_tr_complete st rs).nFailed +
      countNotFound rs =
    st.nSucceeded + st.nFilteredBins + st.nFailed + rs.length := by
  induction rs generalizing st with
  | nil => simp [runCompletions, countNotFound]
  | cons r rest ih =>
      have hstep := tr_complete_sum st r
      have hrec := ih (udf_bg_scan_tr_complete st r)
      have hcons : countNotFound (r :: rest) =
          (if r = AS_ERR_NOT_FOUND then 1 else 0) + countNotFound rest := by
        simp only [countNotFound, List.countP_cons, beq_iff_eq]
        split_ifs <;> omega
      have hrun : runCompletions udf_bg_scan_tr_complete st (r :: rest) =
          runCompletions udf_bg_scan_tr_complete
            (udf_bg_scan_tr_complete st r) rest := rfl
      rw [hrun, hcons]
      simp only [List.length_cons]
      omega

theorem send_dead_fd (job : ConnJob) (ctl : JobCtl) (size : Nat)
    (env : SendEnv) (hfd : job.fdLive = false) :
    conn_scan_job_send_response job ctl size env =
      { ret := false, job := job, ctl := ctl, attemptedSend := false,
        forceClosedNow := false, bytesWritten := 0 } := by
  simp [conn_scan_job_send_response, hfd]

theorem runSends_dead (sends : List (Nat × SendEnv)) :
    ∀ (job : ConnJob) (ctl : JobCtl), job.fdLive = false →
      runSends job ctl sends = (job, ctl, 0) := by
  induction sends with
  | nil => intro job ctl hfd; rfl
  | cons e rest ih =>
      intro job ctl hfd
      simp [runSends, send_dead_fd job ctl e.1 e.2 hfd, ih job ctl hfd]

theorem send_force_closes_dead (job : ConnJob) (ctl : JobCtl) (size : Nat)
    (env : SendEnv)
    (h : (conn_scan_job_send_response job ctl size env).forceClosedNow = true) :
    (conn_scan_job_send_response job ctl size env).job.fdLive = false := by
  cases hfd : job.fdLive with
  | false => rw [send_dead_fd job ctl size env hfd] at h; simp at h
  | true =>
      cases hs : env.sendOk with
      | false =>
          simp [conn_scan_job_send_response, send_blocking_response_chunk,
            hfd, hs]
      | true =>
          simp [conn_scan_job_send_response, send_blocking_response_chunk,
            hfd, hs, sizeof_as_proto] at h

theorem runSends_force_close_once (sends : List (Nat × SendEnv)) :
    ∀ (job : ConnJob) (ctl : JobCtl), (runSends job ctl sends).2.2 ≤ 1 := by
  induction sends with
  | nil => intro job ctl; simp [runSends]
  | cons e rest ih =>
      intro job ctl
      by_cases hf :
          (conn_scan_job_send_response job ctl e.1 e.2).forceClosedNow = true
      · have hdead := send_force_closes_dead job ctl e.1 e.2 hf
        have hrest := runSends_dead rest
          (conn_scan_job_send_response job ctl e.1 e.2).job
          (conn_scan_job_send_response job ctl e.1 e.2).ctl hdead
        simp [runSends, hf, hrest]
      · have hrest := ih (conn_scan_job_send_response job ctl e.1 e.2).job
          (conn_scan_job_send_response job ctl e.1 e.2).ctl
        simp [runSends, hf]
        omega

theorem send_keeps_reason (job : ConnJob) (ctl : JobCtl) (size : Nat)
    (env : SendEnv) (h : ctl.abandoned ≠ 0) :
    (conn_scan_job_send_response job ctl size env).ctl.abandoned =
      ctl.abandoned := by
  cases hfd : job.fdLive with
  | false => simp [conn_scan_job_send_response, hfd]
  | true =>
      cases hs : env.sendOk with
      | false =>
          simp [conn_scan_job_send_response, send_blocking_response_chunk,
            hfd, hs, abandon_reason, h]
      | true =>
          simp [conn_scan_job_send_response, send_blocking_response_chunk,
            hfd, hs, sizeof_as_proto]

theorem runSends_keeps_reason (sends : List (Nat × SendEnv)) :
    ∀ (job : ConnJob) (ctl : JobCtl), ctl.abandoned ≠ 0 →
      (runSends job ctl sends).2.1.abandoned = ctl.abandoned := by
  induction sends with
  | nil => intro job ctl h; simp [runSends]
  | cons e rest ih =>
      intro job ctl h
      have hstep := send_keeps_reason job ctl e.1 e.2 h
      have hrec := ih (conn_scan_job_send_response job ctl e.1 e.2).job
        (conn_scan_job_send_response job ctl e.1 e.2).ctl (by omega)
      simp [runSends]
      omega

set_option maxHeartbeats 2000000 in
theorem cb_limit_const (cfg : BasicJobCfg) (r : Rec) (env : RecEnv)
    (st : JobState) (sl : SliceState) :
    (basic_scan_job_reduce_cb cfg r env st sl).sl.limit = sl.limit := by
  obtain ⟨o, ho⟩ : ∃ o, basic_scan_job_reduce_cb cfg r env st sl = o :=
    ⟨_, rfl⟩
  rw [ho]
  unfold basic_scan_job_reduce_cb at ho
  split_ifs at ho <;>
    first
      | (unfold basic_scan_emit at ho
         split_ifs at ho <;> subst ho <;> simp)
      | (subst ho; simp)

set_option maxHeartbeats 2000000 in
theorem cb_cont_passed (cfg : BasicJobCfg) (r : Rec) (env : RecEnv)
    (st : JobState) (sl : SliceState)
    (h : (basic_scan_job_reduce_cb cfg r env st sl).cont = true) :
    passed_limit_gate (basic_scan_job_reduce_cb cfg r env st sl).exit = true
    := by
  obtain ⟨o, ho⟩ : ∃ o, basic_scan_job_reduce_cb cfg r env st sl = o :=
    ⟨_, rfl⟩
  rw [ho] at h ⊢
  unfold basic_scan_job_reduce_cb at ho
  split_ifs at ho <;>
    first
      | (unfold basic_scan_emit at ho
         split_ifs at ho <;> subst ho <;> simp_all [passed_limit_gate])
      | (subst ho; simp_all [passed_limit_gate])

set_option maxHeartbeats 2000000 in
theorem cb_gate_pass (cfg : BasicJobCfg) (r : Rec) (env : RecEnv)
    (st : JobState) (sl : SliceState) (hl : sl.limit ≠ 0)
    (hp : passed_limit_gate (basic_scan_job_reduce_cb cfg r env st sl).exit
      = true) :
    sl.count ≠ sl.limit ∧
    (basic_scan_job_reduce_cb cfg r env st sl).sl.count = sl.count + 1 := by
  obtain ⟨o, ho⟩ : ∃ o, basic_scan_job_reduce_cb cfg r env st sl = o :=
    ⟨_, rfl⟩
  rw [ho] at hp ⊢
  unfold basic_scan_job_reduce_cb at ho
  split_ifs at ho <;>
    first
      | (unfold basic_scan_emit at ho
         split_ifs at ho <;> subst ho <;> simp_all [passed_limit_gate])
      | (subst ho; simp_all [passed_limit_gate])

set_option maxHeartbeats 2000000 in
theorem cb_sample_inv (cfg : BasicJobCfg) (r : Rec) (env : RecEnv)
    (st : JobState) (sl : SliceState) (hmp : cfg.maxPerPartition ≠ 0)
    (h1 : st.nSucceeded ≤ st.sampleCount)
    (h2 : st.nSucceeded ≤ cfg.sampleMax) :
    (basic_scan_job_reduce_cb cfg r env st sl).st.nSucceeded ≤
      (basic_scan_job_reduce_cb cfg r env st sl).st.sampleCount ∧
    (basic_scan_job_reduce_cb cfg r env st sl).st.nSucceeded ≤
      cfg.sampleMax := by
  obtain ⟨o, ho⟩ : ∃ o, basic_scan_job_reduce_cb cfg r env st sl = o :=
    ⟨_, rfl⟩
  rw [ho]
  unfold basic_scan_job_reduce_cb at ho
  split_ifs at ho <;>
    first
      | (unfold basic_scan_emit at ho
         split_ifs at ho <;> subst ho <;> (simp_all; try omega))
      | (subst ho; (simp_all; try omega))

set_option maxHeartbeats 2000000 in
theorem cb_serialize_count (cfg : BasicJobCfg) (r : Rec) (env : RecEnv)
    (st : JobState) (sl : SliceState) :
    countEff Eff.serialize (basic_scan_job_reduce_cb cfg r env st sl).effs =
      (basic_scan_job_reduce_cb cfg r env st sl).st.nSucceeded -
        st.nSucceeded := by
  obtain ⟨o, ho⟩ : ∃ o, basic_scan_job_reduce_cb cfg r env st sl = o :=
    ⟨_, rfl⟩
  rw [ho]
  unfold basic_scan_job_reduce_cb at ho
  split_ifs at ho <;>
    first
      | (unfold basic_scan_emit at ho
         split_ifs at ho <;> subst ho <;> (simp [countEff]; try omega))
      | (subst ho; (simp [countEff]; try omega))

theorem run_shared_sample_bound (cfg : BasicJobCfg)
    (hmp : cfg.maxPerPartition ≠ 0) :
    ∀ (l : List (Rec × RecEnv × SliceState)) (st : JobState),
      st.nSucceeded ≤ st.sampleCount → st.nSucceeded ≤ cfg.sampleMax →
      (run_shared cfg st l).nSucceeded ≤ cfg.sampleMax := by
  intro l
  induction l with
  | nil => intro st h1 h2; exact h2
  | cons e rest ih =>
      intro st h1 h2
      have h := cb_sample_inv cfg e.1 e.2.1 st e.2.2 hmp h1 h2
      exact ih _ h.1 h.2

theorem run_cb_considered (cfg : BasicJobCfg) :
    ∀ (recs : List (Rec × RecEnv)) (st : JobState) (sl : SliceState),
      sl.limit ≠ 0 → sl.count ≤ sl.limit →
      List.countP passed_limit_gate (run_cb cfg recs st sl).2.2 + sl.count ≤
        sl.limit := by
  intro recs
  induction recs with
  | nil =>
      intro st sl hl hc
      simp [run_cb]
      omega
  | cons e rest ih =>
      intro st sl hl hc
      by_cases hcont : (basic_scan_job_reduce_cb cfg e.1 e.2 st sl).cont = true
      · have hpass := cb_cont_passed cfg e.1 e.2 st sl hcont
        have hgate := cb_gate_pass cfg e.1 e.2 st sl hl hpass
        have hlim := cb_limit_const cfg e.1 e.2 st sl
        have hrec := ih (basic_scan_job_reduce_cb cfg e.1 e.2 st sl).st
          (basic_scan_job_reduce_cb cfg e.1 e.2 st sl).sl
          (by rw [hlim]; exact hl)
          (by rw [hlim, hgate.2]; omega)
        rw [hlim] at hrec
        rw [hgate.2] at hrec
        have hgoal : (run_cb cfg (e :: rest) st sl).2.2 =
            (basic_scan_job_reduce_cb cfg e.1 e.2 st sl).exit ::
              (run_cb cfg rest (basic_scan_job_reduce_cb cfg e.1 e.2 st sl).st
                (basic_scan_job_reduce_cb cfg e.1 e.2 st sl).sl).2.2 := by
          simp [run_cb, hcont]
        rw [hgoal, List.countP_cons]
        simp only [hpass, if_true]
        omega
      · have hgoal : (run_cb cfg (e :: rest) st sl).2.2 =
            [(basic_scan_job_reduce_cb cfg e.1 e.2 st sl).exit] := by
          simp [run_cb, hcont]
        rw [hgoal, List.countP_cons]
        simp only [List.countP_nil]
        by_cases hp :
            passed_limit_gate
              (basic_scan_job_reduce_cb cfg e.1 e.2 st sl).exit = true
        · have hgate := cb_gate_pass cfg e.1 e.2 st sl hl hp
          simp only [hp, if_true]
          omega
        · simp [hp]
          omega

--------------------------------------------------------------------------------
-- Claim theorems.
--------------------------------------------------------------------------------

/-- C3: scan-type inference — a non-UDF request maps to BASIC or OPS_BG on
the WRITE bit, a UDF request maps to AGGR or UDF_BG on the UDF_OP field, and
any other combination is UNKNOWN, for which as_scan returns the PARAMETER
error without invoking any job start. -/
theorem get_scan_type_spec (tr : TrMsg) (br ar ur orr : Nat) :
    (tr.isUdf = false → tr.info2Write = false →
      get_scan_type tr = ScanType.basic) ∧
    (tr.isUdf = false → tr.info2Write = true →
      get_scan_type tr = ScanType.opsBg) ∧
    (tr.isUdf = true → tr.udfOp = some AS_UDF_OP_AGGREGATE →
      get_scan_type tr = ScanType.aggr) ∧
    (tr.isUdf = true → tr.udfOp = some AS_UDF_OP_BACKGROUND →
      get_scan_type tr = ScanType.udfBg) ∧
    (tr.isUdf = true →
      (∀ v, tr.udfOp = some v →
        v ≠ AS_UDF_OP_AGGREGATE ∧ v ≠ AS_UDF_OP_BACKGROUND) →
      get_scan_type tr = ScanType.unknown ∧
      as_scan tr br ar ur orr = (AS_ERR_PARAMETER, none)) := by
  refine ⟨?_, ?_, ?_, ?_, ?_⟩
  · intro h1 h2; simp [get_scan_type, h1, h2]
  · intro h1 h2; simp [get_scan_type, h1, h2]
  · intro h1 h2; simp [get_scan_type, h1, h2]
  · intro h1 h2
    simp [get_scan_type, h1, h2, AS_UDF_OP_AGGREGATE, AS_UDF_OP_BACKGROUND]
  · intro h1 h2
    have hu : get_scan_type tr = ScanType.unknown := by
      cases hop : tr.udfOp with
      | none => simp [get_scan_type, h1, hop]
      | some v =>
          have hv := h2 v hop
          simp [get_scan_type, h1, hop, hv.1, hv.2]
    exact ⟨hu, by simp [as_scan, hu]⟩

/-- C3 witness: a UDF request whose UDF_OP byte is 3 is UNKNOWN and as_scan
returns PARAMETER without starting a job. -/
theorem get_scan_type_spec_witness :
    get_scan_type { isUdf := true, info2Write := false, udfOp := some 3 } =
        ScanType.unknown ∧
    as_scan { isUdf := true, info2Write := false, udfOp := some 3 } 0 0 0 0 =
        (AS_ERR_PARAMETER, none) :=
  (get_scan_type_spec
      { isUdf := true, info2Write := false, udfOp := some 3 } 0 0 0 0).2.2.2.2
    (by decide)
    (by intro v hv; injection hv with hv; subst hv; exact ⟨by decide, by decide⟩)

/-- C5: for sample_max > 0 the derived per-partition budget is
ceil(sample_max / n_pids_requested) + SAMPLE_MARGIN with SAMPLE_MARGIN = 4;
with no requested partitions, n_pids is estimated as 4096 divided by the
cluster size before applying the same formula. -/
theorem sample_max_init_spec (pct n cs m : Nat) (hm : 0 < m) :
    SAMPLE_MARGIN = 4 ∧
    (0 < n → (sample_max_init pct n cs m).maxPerPartition =
      ceil_div m n + SAMPLE_MARGIN) ∧
    (0 < AS_PARTITIONS / cs → (sample_max_init pct 0 cs m).maxPerPartition =
      ceil_div m (AS_PARTITIONS / cs) + SAMPLE_MARGIN) := by
  refine ⟨rfl, ?_, ?_⟩
  · intro hn
    have h1 : ¬(m = 0) := by omega
    have h2 : ¬(n = 0) := by omega
    simp [sample_max_init, h1, h2, ceil_div_eq m n hm hn]
  · intro hcs
    have h1 : ¬(m = 0) := by omega
    simp [sample_max_init, h1, ceil_div_eq m (AS_PARTITIONS / cs) hm hcs]

/-- C5 witness: sample_max 10 over 3 requested partitions gives
ceil(10/3) + 4 = 8; with no pids and cluster size 1, 10 over 4096 estimated
masters gives ceil(10/4096) + 4 = 5. -/
theorem sample_max_init_spec_witness :
    (sample_max_init 100 3 1 10).maxPerPartition = ceil_div 10 3 + SAMPLE_MARGIN ∧
    (sample_max_init 100 0 1 10).maxPerPartition =
      ceil_div 10 (AS_PARTITIONS / 1) + SAMPLE_MARGIN :=
  ⟨(sample_max_init_spec 100 3 1 10 (by decide)).2.1 (by decide),
   (sample_max_init_spec 100 0 1 10 (by decide)).2.2 (by decide)⟩

/-- C7: for both background variants, each sub-transaction completion
decrements n_active_tr and updates exactly the counter its result selects
(OK → n_succeeded, NOT_FOUND → none, FILTERED_OUT → n_filtered_bins, else
n_failed), and over any completion sequence the three counters plus the
NOT_FOUND count grow by exactly the number of completions. -/
theorem bg_tr_complete_spec :
    (∀ st, udf_bg_scan_tr_complete st AS_OK =
      { st with nActiveTr := st.nActiveTr - 1,
                nSucceeded := st.nSucceeded + 1 }) ∧
    (∀ st, udf_bg_scan_tr_complete st AS_ERR_NOT_FOUND =
      { st with nActiveTr := st.nActiveTr - 1 }) ∧
    (∀ st, udf_bg_scan_tr_complete st AS_ERR_FILTERED_OUT =
      { st with nActiveTr := st.nActiveTr - 1,
                nFilteredBins := st.nFilteredBins + 1 }) ∧
    (∀ st r, r ≠ AS_OK → r ≠ AS_ERR_NOT_FOUND → r ≠ AS_ERR_FILTERED_OUT →
      udf_bg_scan_tr_complete st r =
        { st with nActiveTr := st.nActiveTr - 1,
                  nFailed := st.nFailed + 1 }) ∧
    (∀ st r, ops_bg_scan_tr_complete st r = udf_bg_scan_tr_complete st r) ∧
    (∀ st rs,
      (runCompletions udf_bg_scan_tr_complete st rs).nSucceeded +
        (runCompletions udf_bg_scan_tr_complete st rs).nFilteredBins +
        (runCompletions udf_bg_scan_tr_complete st rs).nFailed +
        countNotFound rs =
      st.nSucceeded + st.nFilteredBins + st.nFailed + rs.length) ∧
    (∀ st rs,
      (runCompletions ops_bg_scan_tr_complete st rs).nSucceeded +
        (runCompletions ops_bg_scan_tr_complete st rs).nFilteredBins +
        (runCompletions ops_bg_scan_tr_complete st rs).nFailed +
        countNotFound rs =
      st.nSucceeded + st.nFilteredBins + st.nFailed + rs.length) := by
  have hsame : ∀ st r, ops_bg_scan_tr_complete st r =
      udf_bg_scan_tr_complete st r := by
    intro st r; rfl
  refine ⟨?_, ?_, ?_, ?_, hsame, runCompletions_sum, ?_⟩
  · intro st
    simp [udf_bg_scan_tr_complete, AS_OK]
  · intro st
    simp [udf_bg_scan_tr_complete, AS_OK, AS_ERR_NOT_FOUND]
  · intro st
    simp [udf_bg_scan_tr_complete, AS_OK, AS_ERR_NOT_FOUND, AS_ERR_FILTERED_OUT]
  · intro st r h0 h2 h27
    simp [udf_bg_scan_tr_complete, h0, h2, h27]
  · intro st rs
    have hfold : runCompletions ops_bg_scan_tr_complete st rs =
        runCompletions udf_bg_scan_tr_complete st rs := by
      unfold runCompletions
      induction rs generalizing st with
      | nil => rfl
      | cons r rest ih => simpa [List.foldl] using ih (udf_bg_scan_tr_complete st r)
    rw [hfold]
    exact runCompletions_sum st rs

/-- C7 witness: a completion with result 9 (any non-OK, non-NOT_FOUND,
non-FILTERED_OUT code) decrements the active counter and increments only
n_failed. -/
theorem bg_tr_complete_spec_witness :
    udf_bg_scan_tr_complete
        { nActiveTr := 3, nSucceeded := 1, nFilteredBins := 2, nFailed := 0 } 9 =
      { nActiveTr := 2, nSucceeded := 1, nFilteredBins := 2, nFailed := 1 } :=
  bg_tr_complete_spec.2.2.2.1
    { nActiveTr := 3, nSucceeded := 1, nFilteredBins := 2, nFailed := 0 } 9
    (by decide) (by decide) (by decide)

/-- C4 (amended): with a live fd, send_response returns true exactly when
the whole framed chunk is written; on a failed or partial write it
force-closes and nulls the fd, abandons the job with RESPONSE_TIMEOUT when
errno was the timeout error and RESPONSE_ERROR otherwise, and returns
false; on success it adds sizeof(as_proto) plus the bytes sent — 8 bytes
more than were actually written — to net_io_bytes. -/
theorem conn_send_response_spec (job : ConnJob) (ctl : JobCtl) (size : Nat)
    (env : SendEnv) (hfd : job.fdLive = true) :
    ((conn_scan_job_send_response job ctl size env).ret = true ↔
      env.sendOk = true) ∧
    (env.sendOk = false →
      conn_scan_job_send_response job ctl size env =
        { ret := false, job := { job with fdLive := false },
          ctl := { ctl with
            abandoned := abandon_reason ctl.abandoned
              (if env.errnoTimedOut = true then AS_SCAN_ERR_RESPONSE_TIMEOUT
               else AS_SCAN_ERR_RESPONSE_ERROR) },
          attemptedSend := true, forceClosedNow := true, bytesWritten := 0 }) ∧
    (env.sendOk = true →
      (conn_scan_job_send_response job ctl size env).bytesWritten =
        (if job.compressResponse = true then env.compressedSize else size) ∧
      (conn_scan_job_send_response job ctl size env).job.netIoBytes =
        job.netIoBytes + sizeof_as_proto +
          (conn_scan_job_send_response job ctl size env).bytesWritten ∧
      (conn_scan_job_send_response job ctl size env).ctl = ctl) := by
  cases hs : env.sendOk with
  | false =>
      refine ⟨?_, ?_, ?_⟩
      · simp [conn_scan_job_send_response, send_blocking_response_chunk, hfd, hs]
      · intro _
        simp [conn_scan_job_send_response, send_blocking_response_chunk, hfd, hs]
      · intro hcontra; simp_all
  | true =>
      refine ⟨?_, ?_, ?_⟩
      · simp [conn_scan_job_send_response, send_blocking_response_chunk, hfd, hs,
          sizeof_as_proto]
      · intro hcontra; simp_all
      · intro _
        simp [conn_scan_job_send_response, send_blocking_response_chunk, hfd, hs,
          sizeof_as_proto]
        omega

/-- C4 counterexample: a successful uncompressed 100-byte chunk send returns
true and writes 100 bytes, yet net_io_bytes grows by 108, not by the bytes
sent as the claim states. -/
theorem conn_send_net_io_counterexample :
    (conn_scan_job_send_response
        { fdLive := true, compressResponse := false, netIoBytes := 0 }
        { abandoned := 0 } 100
        { compressedSize := 0, sendOk := true, errnoTimedOut := false }).ret =
      true ∧
    (conn_scan_job_send_response
        { fdLive := true, compressResponse := false, netIoBytes := 0 }
        { abandoned := 0 } 100
        { compressedSize := 0, sendOk := true, errnoTimedOut := false
        }).bytesWritten = 100 ∧
    ¬((conn_scan_job_send_response
        { fdLive := true, compressResponse := false, netIoBytes := 0 }
        { abandoned := 0 } 100
        { compressedSize := 0, sendOk := true, errnoTimedOut := false
        }).job.netIoBytes = 0 + 100) ∧
    (conn_scan_job_send_response
        { fdLive := true, compressResponse := false, netIoBytes := 0 }
        { abandoned := 0 } 100
        { compressedSize := 0, sendOk := true, errnoTimedOut := false
        }).job.netIoBytes = 108 := by decide

/-- C4 witness: a timed-out failing send on a live fd force-closes the fd,
abandons with RESPONSE_TIMEOUT, and returns false. -/
theorem conn_send_response_spec_witness :
    conn_scan_job_send_response
        { fdLive := true, compressResponse := false, netIoBytes := 7 }
        { abandoned := 0 } 50
        { compressedSize := 0, sendOk := false, errnoTimedOut := true } =
      { ret := false,
        job := { fdLive := false, compressResponse := false, netIoBytes := 7 },
        ctl := { abandoned := AS_SCAN_ERR_RESPONSE_TIMEOUT },
        attemptedSend := true, forceClosedNow := true, bytesWritten := 0 } :=
  (conn_send_response_spec
      { fdLive := true, compressResponse := false, netIoBytes := 7 }
      { abandoned := 0 } 50
      { compressedSize := 0, sendOk := false, errnoTimedOut := true }
      (by decide)).2.1 (by decide)

/-- C10: a send_response call after the fd was released (fd_h null, the job
already abandoned by an earlier send failure) returns false without writing,
without changing net_io_bytes, and without touching the abandonment reason;
over any sequence of sends the fd is force-closed at most once, a dead fd
stays inert forever, and a reason once set is never overwritten, so only the
first failing send determines it. -/
theorem conn_send_after_release_spec (job : ConnJob) (ctl : JobCtl)
    (size : Nat) (env : SendEnv) (hfd : job.fdLive = false) :
    (conn_scan_job_send_response job ctl size env =
      { ret := false, job := job, ctl := ctl, attemptedSend := false,
        forceClosedNow := false, bytesWritten := 0 }) ∧
    (∀ sends, runSends job ctl sends = (job, ctl, 0)) ∧
    (∀ (j : ConnJob) (c : JobCtl) (sends : List (Nat × SendEnv)),
      (runSends j c sends).2.2 ≤ 1) ∧
    (∀ (j : ConnJob) (c : JobCtl) (sends : List (Nat × SendEnv)),
      c.abandoned ≠ 0 → (runSends j c sends).2.1.abandoned = c.abandoned) :=
  ⟨send_dead_fd job ctl size env hfd,
   fun sends => runSends_dead sends job ctl hfd,
   fun j c sends => runSends_force_close_once sends j c,
   fun j c sends h => runSends_keeps_reason sends j c h⟩

/-- C10 witness: on a job whose fd is already released, a send returns false
and changes nothing. -/
theorem conn_send_after_release_spec_witness :
    conn_scan_job_send_response
        { fdLive := false, compressResponse := false, netIoBytes := 42 }
        { abandoned := AS_SCAN_ERR_RESPONSE_ERROR } 10
        { compressedSize := 0, sendOk := true, errnoTimedOut := false } =
      { ret := false,
        job := { fdLive := false, compressResponse := false, netIoBytes := 42 },
        ctl := { abandoned := AS_SCAN_ERR_RESPONSE_ERROR },
        attemptedSend := false, forceClosedNow := false, bytesWritten := 0 } :=
  (conn_send_after_release_spec
      { fdLive := false, compressResponse := false, netIoBytes := 42 }
      { abandoned := AS_SCAN_ERR_RESPONSE_ERROR } 10
      { compressedSize := 0, sendOk := true, errnoTimedOut := false }
      (by decide)).1

/-- C6 (amended): an ops-bg request that passes field parsing, set
resolution and the rps check is rejected with PARAMETER when its READ bit
is set or it has no ops; every admitted ops-bg job's sub-transaction
template has the WRITE bit set, carries over the DURABLE_DELETE and
REPLACE_ONLY flags from the request, and sets UPDATE_ONLY unconditionally,
regardless of the request's UPDATE_ONLY bit. -/
theorem ops_bg_start_spec (m : OpsMsg) (env : OpsStartEnv)
    (hp : env.parseOk = true)
    (hs : ¬(env.setId = INVALID_SET_ID ∧ env.setNameNonEmpty = true))
    (hr : env.rpsOk = true) :
    ((m.info1Read = true ∨ m.nOps = 0) →
      ops_bg_scan_job_start m env = OpsBgStart.err AS_ERR_PARAMETER) ∧
    (∀ tpl, ops_bg_scan_job_start m env = OpsBgStart.admitted tpl →
      tpl.info2Write = true ∧
      tpl.info2DurableDelete = m.info2DurableDelete ∧
      tpl.info3ReplaceOnly = m.info3ReplaceOnly ∧
      tpl.info3UpdateOnly = true) := by
  constructor
  · intro hbad
    have hv : ops_bg_validate_ops m = false := by
      rcases hbad with h | h
      · simp [ops_bg_validate_ops, h]
      · simp [ops_bg_validate_ops, h]
    simp [ops_bg_scan_job_start, hp, hs, hr, hv]
  · intro tpl htpl
    unfold ops_bg_scan_job_start at htpl
    split_ifs at htpl <;> simp_all [ops_bg_template]
    subst htpl
    simp

/-- C6 counterexample: a valid ops-bg request with the UPDATE_ONLY bit clear
is admitted with a template whose UPDATE_ONLY bit is set — the flag is not
carried over from the request. -/
theorem ops_bg_update_only_counterexample :
    ops_bg_scan_job_start
        { info1Read := false, info2DurableDelete := false,
          info3UpdateOnly := false, info3ReplaceOnly := false, nOps := 1 }
        { parseOk := true, setId := 3, setNameNonEmpty := true, rpsOk := true,
          predexpOk := true, managerRes := 0 } =
      OpsBgStart.admitted
        { info2Write := true, info2DurableDelete := false,
          info3UpdateOnly := true, info3ReplaceOnly := false } := by decide

/-- C6 witness: an ops-bg request with the READ bit set is rejected with
PARAMETER. -/
theorem ops_bg_start_spec_witness :
    ops_bg_scan_job_start
        { info1Read := true, info2DurableDelete := false,
          info3UpdateOnly := false, info3ReplaceOnly := false, nOps := 1 }
        { parseOk := true, setId := 3, setNameNonEmpty := true, rpsOk := true,
          predexpOk := true, managerRes := 0 } =
      OpsBgStart.err AS_ERR_PARAMETER :=
  (ops_bg_start_spec
      { info1Read := true, info2DurableDelete := false,
        info3UpdateOnly := false, info3ReplaceOnly := false, nOps := 1 }
      { parseOk := true, setId := 3, setNameNonEmpty := true, rpsOk := true,
        predexpOk := true, managerRes := 0 }
      (by decide) (by decide) (by decide)).1 (Or.inl (by decide))

set_option maxHeartbeats 2000000 in
/-- C9: every exit path of the basic reduce callback releases the index
reference exactly once, and closes the storage handle exactly as often as it
opened it, for all jobs, records, external outcomes and states — covering
the abandoned, cluster-key, percent-limit, tombstone, set/doomed, metadata
and bin predicate, sample-max overflow, unreadable-bins, successful
serialization and last-sample paths. -/
theorem reduce_cb_resource_safety (cfg : BasicJobCfg) (r : Rec) (env : RecEnv)
    (st : JobState) (sl : SliceState) :
    countEff Eff.recordDone (basic_scan_job_reduce_cb cfg r env st sl).effs
      = 1 ∧
    countEff Eff.storageOpen (basic_scan_job_reduce_cb cfg r env st sl).effs =
      countEff Eff.storageClose
        (basic_scan_job_reduce_cb cfg r env st sl).effs := by
  obtain ⟨o, ho⟩ : ∃ o, basic_scan_job_reduce_cb cfg r env st sl = o :=
    ⟨_, rfl⟩
  rw [ho]
  unfold basic_scan_job_reduce_cb at ho
  split_ifs at ho <;>
    first
      | (unfold basic_scan_emit at ho
         split_ifs at ho <;> subst ho <;> simp [countEff])
      | (subst ho; simp [countEff])

/-- C1: under absolute-max sampling (sample_max > 0, so max_per_partition is
nonzero), every candidate record atomically bumps the shared sample_count; a
callback observing the new count strictly above sample_max closes the record,
emits nothing and stops; the one observing exactly sample_max serializes the
record as the last sample and stops (whenever the record serializes at all);
serializations coincide with n_succeeded increments; and over every
interleaved run from a fresh job, n_succeeded never exceeds sample_max. -/
theorem basic_sample_max_spec (cfg : BasicJobCfg) (hmax : 0 < cfg.sampleMax)
    (hmp : cfg.maxPerPartition ≠ 0) :
    (∀ r env st sl, reaches_sample_block cfg r env st sl →
      st.sampleCount + 1 > cfg.sampleMax →
      basic_scan_job_reduce_cb cfg r env st sl =
        { cont := false, st := { st with sampleCount := st.sampleCount + 1 },
          sl := sl,
          effs := [Eff.storageOpen, Eff.storageClose, Eff.recordDone],
          exit := CbExit.stopOverMax }) ∧
    (∀ r env st sl, reaches_sample_block cfg r env st sl →
      st.sampleCount + 1 = cfg.sampleMax →
      (cfg.noBinData = true ∨ env.loadBinsOk = true) →
      basic_scan_job_reduce_cb cfg r env st sl =
        { cont := false,
          st := { st with
                  sampleCount := st.sampleCount + 1,
                  nSucceeded := st.nSucceeded + 1 },
          sl := sl,
          effs := [Eff.storageOpen, Eff.serialize, Eff.storageClose,
            Eff.recordDone],
          exit := CbExit.doneEmitted true }) ∧
    (∀ r env st sl,
      countEff Eff.serialize (basic_scan_job_reduce_cb cfg r env st sl).effs =
        (basic_scan_job_reduce_cb cfg r env st sl).st.nSucceeded -
          st.nSucceeded) ∧
    (∀ l, (run_shared cfg initJobState l).nSucceeded ≤ cfg.sampleMax) := by
  refine ⟨?_, ?_, ?_, ?_⟩
  · intro r env st sl hr hover
    obtain ⟨ha, hck, hlim, hsd, hmf, hbf⟩ := hr
    simp [basic_scan_job_reduce_cb, basic_scan_emit, ha, hck, hlim, hsd,
      hmf, hbf, hmp, hover]
  · intro r env st sl hr heq hload
    obtain ⟨ha, hck, hlim, hsd, hmf, hbf⟩ := hr
    have h9 : ¬(st.sampleCount + 1 > cfg.sampleMax) := by omega
    rcases hload with hnb | hlb
    · simp [basic_scan_job_reduce_cb, basic_scan_emit, ha, hck, hlim, hsd,
        hmf, hbf, hmp, h9, heq, hnb]
    · simp [basic_scan_job_reduce_cb, basic_scan_emit, ha, hck, hlim, hsd,
        hmf, hbf, hmp, h9, heq, hlb]
  · intro r env st sl
    exact cb_serialize_count cfg r env st sl
  · intro l
    exact run_shared_sample_bound cfg hmp l initJobState (Nat.le_refl 0)
      (Nat.zero_le _)

/-- C1 witness: a sample_max-2 job run over three clean candidate records
succeeds on at most 2 of them. -/
theorem basic_sample_max_spec_witness :
    (run_shared cfgW initJobState
      [(recW, envW, { limit := 0, count := 0 }),
       (recW, envW, { limit := 0, count := 0 }),
       (recW, envW, { limit := 0, count := 0 })]).nSucceeded ≤ 2 :=
  (basic_sample_max_spec cfgW (by decide) (by decide)).2.2.2
    [(recW, envW, { limit := 0, count := 0 }),
     (recW, envW, { limit := 0, count := 0 }),
     (recW, envW, { limit := 0, count := 0 })]

/-- C2: with percent sampling (sample_pct < 100, sample_max 0 hence
max_per_partition 0), the slice computes limit = treeSize * sample_pct / 100
in integer arithmetic, the number of index references considered during the
reduction — counted before any tombstone or other filtering — is at most
that limit, and a limit of 0 means the tree is not reduced at all. -/
theorem basic_percent_sampling_spec (cfg : BasicJobCfg)
    (hpct : cfg.samplePct < 100) (hmp : cfg.maxPerPartition = 0)
    (hset : ¬(cfg.setId = INVALID_SET_ID ∧ cfg.setNameNonEmpty = true)) :
    (∀ n cs, (sample_max_init cfg.samplePct n cs 0).maxPerPartition = 0) ∧
    (∀ treeSize hasPids recs st,
      (basic_scan_job_slice cfg hasPids true treeSize recs st).limit =
        treeSize * cfg.samplePct / 100) ∧
    (∀ treeSize hasPids recs st,
      List.countP passed_limit_gate
        (basic_scan_job_slice cfg hasPids true treeSize recs st).exits ≤
        treeSize * cfg.samplePct / 100) ∧
    (∀ treeSize hasPids recs st, treeSize * cfg.samplePct / 100 = 0 →
      (basic_scan_job_slice cfg hasPids true treeSize recs st).reduced =
        false) := by
  have hne : cfg.samplePct ≠ 100 := by omega
  refine ⟨?_, ?_, ?_, ?_⟩
  · intro n cs
    simp [sample_max_init]
  · intro treeSize hasPids recs st
    by_cases hz : treeSize * cfg.samplePct / 100 = 0
    · simp [basic_scan_job_slice, hset, hmp, hne, hz]
    · simp [basic_scan_job_slice, hset, hmp, hne, hz, slice_finish]
  · intro treeSize hasPids recs st
    by_cases hz : treeSize * cfg.samplePct / 100 = 0
    · simp [basic_scan_job_slice, hset, hmp, hne, hz]
    · have hb := run_cb_considered cfg recs st
        { limit := treeSize * cfg.samplePct / 100, count := 0 } hz
        (Nat.zero_le _)
      simp at hb
      simp [basic_scan_job_slice, hset, hmp, hne, hz, slice_finish]
      omega
  · intro treeSize hasPids recs st hz
    simp [basic_scan_job_slice, hset, hmp, hne, hz]

/-- C2 witness: a 10-percent slice of a 20-reference partition computes
limit 2, considers no reference of an empty reduction, and with tree size 5
the limit 0 suppresses the reduction. -/
theorem basic_percent_sampling_spec_witness :
    (basic_scan_job_slice cfgW2 false true 20 [] initJobState).limit = 2 ∧
    (basic_scan_job_slice cfgW2 false true 5 []
      initJobState).reduced = false :=
  ⟨(basic_percent_sampling_spec cfgW2 (by decide) (by decide)
      (by decide)).2.1 20 false [] initJobState,
   (basic_percent_sampling_spec cfgW2 (by decide) (by decide)
      (by decide)).2.2.2 5 false [] initJobState (by decide)⟩

/-- C8: a basic request naming a set that does not resolve is rejected with
NOT_FOUND at start when it is a legacy whole-namespace scan, but admitted
when it carries per-partition pids or digests; each mastered partition slice
of such a job emits exactly a per-pid-done OK chunk, scans no records, and
leaves the counters untouched. -/
theorem basic_unknown_set_spec (req : BasicReq) (env : BasicStartEnv)
    (hp : env.parseOk = true) (hs : req.setId = INVALID_SET_ID)
    (hn : req.setNameNonEmpty = true) :
    (req.hasPids = false →
      basic_scan_job_start req env = BasicStart.err AS_ERR_NOT_FOUND) ∧
    (req.hasPids = true → env.predexpOk = true → env.binNamesRes = AS_OK →
      ¬(req.failOnClusterChange = true ∧ env.migrating = true) →
      env.managerRes = 0 →
      basic_scan_job_start req env =
        BasicStart.admitted (mk_basic_cfg req env)) ∧
    (∀ treeSize recs st hasPids,
      basic_scan_job_slice (mk_basic_cfg req env) hasPids true treeSize recs
        st =
        { st := st, limit := 0, reduced := false, exits := [],
          emits := [Emit.pidDone AS_OK] }) := by
  refine ⟨?_, ?_, ?_⟩
  · intro hnp
    simp [basic_scan_job_start, hp, hs, hn, hnp]
  · intro hpids hpred hbn hmig hmgr
    simp [basic_scan_job_start, hp, hs, hn, hpids, hpred, hbn, hmig, hmgr]
  · intro treeSize recs st hasPids
    simp [basic_scan_job_slice, mk_basic_cfg, hs, hn]

/-- C8 witness: the legacy unknown-set request is refused with NOT_FOUND;
the per-partition variant is admitted and its mastered slice emits only
per-pid-done OK without scanning. -/
theorem basic_unknown_set_spec_witness :
    basic_scan_job_start reqW envW8 = BasicStart.err AS_ERR_NOT_FOUND ∧
    basic_scan_job_start reqW2 envW8 =
      BasicStart.admitted (mk_basic_cfg reqW2 envW8) ∧
    basic_scan_job_slice (mk_basic_cfg reqW2 envW8) true true 10
      [(recW, envW)] initJobState =
      { st := initJobState, limit := 0, reduced := false, exits := [],
        emits := [Emit.pidDone AS_OK] } :=
  ⟨(basic_unknown_set_spec reqW envW8 (by decide) (by decide)
      (by decide)).1 (by decide),
   (basic_unknown_set_spec reqW2 envW8 (by decide) (by decide)
      (by decide)).2.1 (by decide) (by decide) (by decide) (by decide)
      (by decide),
   (basic_unknown_set_spec reqW2 envW8 (by decide) (by decide)
      (by decide)).2.2 10 [(recW, envW)] initJobState true⟩

end ScanCore
